import Mathlib

/-!
Shallow embedding of the bclot Solana lottery program
(programs/bclot/src/{lib.rs, vrf.rs, automation.rs, admin.rs}).

Modelling conventions:
* `Pubkey` is an opaque identifier, modelled as `Nat`.
* `u64` / `u32` arithmetic is modelled on `Nat` with explicit wrapping
  (`% 2 ^ 64`, `% 2 ^ 32`) at each machine operation.
* `i64` timestamps are modelled as `Int`; the Rust `%` on `i64` is the
  truncating remainder, modelled by `Int.tmod`.
* An Anchor instruction handler is modelled as a function from its account
  state to a `TxResult`: `TxResult.ok s` for `Ok(())` with final in-memory
  state `s`, `TxResult.err e s` for `Err(e)` together with the in-memory
  state of the accounts at the moment the error is returned (the host
  runtime then discards `s`; keeping it lets us reason about which
  operations mutate state before failing), and `TxResult.fatal` for a Rust
  panic (out-of-bounds vector indexing), which is not a clean program error.
* `RoundStatus` is embedded with the three constructors `Open`, `PendingVrf`
  and `Closed`: lib.rs declares `Open` and `Closed`, and automation.rs
  assigns `crate::RoundStatus::PendingVrf` (its `EnhancedRoundStatus`
  enumerates all three).
* `LotteryError` includes the four variants referenced from automation.rs
  (`UpkeepNotNeeded`, `RoundStillActive`, `RandomnessAlreadyConsumed`,
  `InvalidRoundId`) alongside the variants declared in lib.rs.
-/

abbrev Pubkey := Nat

/-- Modulus `2 ^ 64` of Rust `u64` arithmetic. -/
def U64_MOD : Nat := 2 ^ 64

/-- Modulus `2 ^ 32` of Rust `u32` arithmetic. -/
def U32_MOD : Nat := 2 ^ 32

/-- Wrapping `u64` addition. -/
def wadd64 (a b : Nat) : Nat := (a + b) % U64_MOD

/-- Wrapping `u64` multiplication. -/
def wmul64 (a b : Nat) : Nat := (a * b) % U64_MOD

/-- Wrapping `u64` subtraction (arguments understood as values below
`U64_MOD`). -/
def wsub64 (a b : Nat) : Nat := (a + U64_MOD - b) % U64_MOD

/-- Source `ROUND_DURATION` from lib.rs: 900 seconds (15 minutes). -/
def ROUND_DURATION : Int := 900

/-- Source `MAX_TICKETS_PER_PLAYER` from lib.rs. -/
def MAX_TICKETS_PER_PLAYER : Nat := 5

/-- Source `RoundStatus` (lib.rs, extended with the `PendingVrf` state assigned in
automation.rs). -/
inductive RoundStatus
  | Open
  | PendingVrf
  | Closed
deriving DecidableEq

/-- Source `LotteryError` (lib.rs `#[error_code]`, plus the four automation/vrf
variants). -/
inductive LotteryError
  | InvalidEntranceFee
  | TokenAlreadySupported
  | TokenNotSupported
  | InvalidTicketCount
  | InsufficientFunds
  | NoActiveRound
  | RoundNotOpen
  | NoTicketsInRound
  | RoundNotClosed
  | NotTheWinner
  | PrizeAlreadyClaimed
  | UpkeepNotNeeded
  | RoundStillActive
  | RandomnessAlreadyConsumed
  | InvalidRoundId
deriving DecidableEq

/-- Source `Ticket` (lib.rs). -/
structure Ticket where
  owner : Pubkey
  price : Nat
  timestamp : Int
  is_bonus : Bool
deriving DecidableEq

/-- Source `Round` (lib.rs). -/
structure Round where
  status : RoundStatus
  start_time : Int
  end_time : Int
  pool_balance : Nat
  commission_balance : Nat
  tickets : List Ticket
  winner_address : Option Pubkey
  winner_ticket_index : Option Nat
  prize_claimed : Bool
deriving DecidableEq

/-- Source `TokenLottery` (lib.rs): the per-asset append-only round sequence. -/
structure TokenLottery where
  rounds : List Round
deriving DecidableEq

/-- Source `PlayerData` (lib.rs). -/
structure PlayerData where
  tickets_count : Nat
  has_bonus_ticket : Bool
deriving DecidableEq

/-- Source `SupportedToken` (lib.rs). -/
structure SupportedToken where
  mint : Pubkey
  price_feed : Pubkey
deriving DecidableEq

/-- Source `LotteryState` (lib.rs): the registry account. -/
structure LotteryState where
  authority : Pubkey
  entrance_fee_percentage : Nat
  beneficiary : Pubkey
  supported_tokens : List SupportedToken
  last_timestamp : Int
  has_active_lottery : Bool
deriving DecidableEq

/-- Source `VrfRequest` (vrf.rs). The 32-byte randomness result is modelled as a
list of byte values. -/
structure VrfRequest where
  round_id : Nat
  token_mint : Option Pubkey
  requested_at : Int
  fulfilled : Bool
  randomness : Option (List Nat)
deriving DecidableEq

/-- Result of running one instruction handler body on in-memory account
state: success with the final state, a clean program error together with the
in-memory state at the point of return, or a Rust panic. -/
inductive TxResult (σ : Type) where
  | ok (s : σ)
  | err (e : LotteryError) (s : σ)
  | fatal
deriving DecidableEq

/-- Source `get_temporary_close_time` (lib.rs lines 359-362):
`current_timestamp - current_timestamp % ROUND_DURATION + ROUND_DURATION`. -/
def get_temporary_close_time (current_timestamp : Int) : Int :=
  current_timestamp - Int.tmod current_timestamp ROUND_DURATION + ROUND_DURATION

/-- The `Round` literal pushed by `get_or_create_round` (lib.rs lines
341-351). -/
def freshRound (current_timestamp : Int) : Round :=
  { status := RoundStatus.Open
    start_time := current_timestamp
    end_time := get_temporary_close_time current_timestamp
    pool_balance := 0
    commission_balance := 0
    tickets := []
    winner_address := none
    winner_ticket_index := none
    prize_claimed := false }

/-- The guard of `get_or_create_round` (lib.rs lines 333-337): the latest
round exists, is `Open`, and `current_timestamp < end_time`. -/
def hasActiveRound (lottery : TokenLottery) (now : Int) : Bool :=
  match lottery.rounds.getLast? with
  | some last => decide (last.status = RoundStatus.Open) && decide (now < last.end_time)
  | none => false

/-- Source `get_or_create_round` (lib.rs lines 327-357). Returns the updated
lottery and registry together with the active round id. -/
def get_or_create_round (lottery : TokenLottery) (state : LotteryState) (now : Int) :
    TokenLottery × LotteryState × Nat :=
  if hasActiveRound lottery now then
    (lottery, state, lottery.rounds.length - 1)
  else
    ({ rounds := lottery.rounds ++ [freshRound now] },
     { state with last_timestamp := now, has_active_lottery := true },
     lottery.rounds.length)

/-- Source `add_tickets_to_round` (lib.rs lines 364-418). The Rust body indexes
`lottery.rounds[round_id]` with no bounds check, so an out-of-range id is a
panic (`TxResult.fatal`); otherwise the body never fails. -/
def add_tickets_to_round (lottery : TokenLottery) (player_data : PlayerData)
    (round_id : Nat) (count : Nat) (ticket_price : Nat) (player : Pubkey)
    (entrance_fee_percentage : Nat) (timestamp : Int) :
    TxResult (TokenLottery × PlayerData) :=
  if h : round_id < lottery.rounds.length then
    let round := lottery.rounds[round_id]
    let total_cost := wmul64 ticket_price count
    let commission := wmul64 total_cost entrance_fee_percentage / 100
    let pool_amount := wsub64 total_cost commission
    let is_first_buyer := round.tickets.isEmpty
    let round' : Round :=
      { round with
        pool_balance := wadd64 round.pool_balance pool_amount
        commission_balance := wadd64 round.commission_balance commission
        tickets :=
          round.tickets ++ List.replicate count ⟨player, ticket_price, timestamp, false⟩ ++
            (if is_first_buyer then [⟨player, 0, timestamp, true⟩] else []) }
    let player_data' : PlayerData :=
      { tickets_count :=
          (player_data.tickets_count + count + (if is_first_buyer then 1 else 0)) % U32_MOD
        has_bonus_ticket := player_data.has_bonus_ticket || is_first_buyer }
    TxResult.ok ({ rounds := lottery.rounds.set round_id round' }, player_data')
  else
    TxResult.fatal

/-- One ticket purchase, as passed to `add_tickets_to_round`. -/
structure Purchase where
  count : Nat
  ticket_price : Nat
  player : Pubkey
  timestamp : Int
deriving DecidableEq

/-- The exact (unwrapped) cost of a purchase: `ticket_price * count`. -/
def purchaseCost (p : Purchase) : Nat := p.ticket_price * p.count

/-- Sequentially apply a list of purchases to one round through
`add_tickets_to_round`. -/
def applyPurchases (lottery : TokenLottery) (pd : PlayerData) (round_id : Nat)
    (fee : Nat) : List Purchase → TxResult (TokenLottery × PlayerData)
  | [] => TxResult.ok (lottery, pd)
  | p :: ps =>
    match add_tickets_to_round lottery pd round_id p.count p.ticket_price p.player fee
        p.timestamp with
    | TxResult.ok (l', pd') => applyPurchases l' pd' round_id fee ps
    | TxResult.err e s => TxResult.err e s
    | TxResult.fatal => TxResult.fatal

/-- Sum of the prices of all tickets in a ledger. -/
def ticketsPriceSum (ts : List Ticket) : Nat := (ts.map Ticket.price).sum

/-- Sum of the prices of the non-bonus tickets in a ledger. -/
def nonBonusPriceSum (ts : List Ticket) : Nat :=
  ((ts.filter (fun t => !t.is_bonus)).map Ticket.price).sum

/-- Source `close_round_and_pick_winner` (lib.rs lines 193-235): operates on the
latest round of the chosen lottery; requires a nonempty round list
(`NoActiveRound`), status `Open` (`RoundNotOpen`) and a nonempty ticket
ledger (`NoTicketsInRound`); picks `randomness % ticket_count`, records the
winner, sets status `Closed`, then applies the close-time split to
`pool_balance`, overwriting `commission_balance`. -/
def close_round_and_pick_winner (state : LotteryState) (lottery : TokenLottery)
    (randomness : Nat) : TxResult TokenLottery :=
  if hne : lottery.rounds.length = 0 then
    TxResult.err LotteryError.NoActiveRound lottery
  else
    let current_round_id := lottery.rounds.length - 1
    let round := lottery.rounds.get ⟨current_round_id, by omega⟩
    if round.status = RoundStatus.Open then
      if ht : round.tickets.length = 0 then
        TxResult.err LotteryError.NoTicketsInRound lottery
      else
        let winner_ticket_index := randomness % round.tickets.length
        let winning_ticket :=
          round.tickets.get ⟨winner_ticket_index, Nat.mod_lt _ (Nat.pos_of_ne_zero ht)⟩
        let commission := wmul64 round.pool_balance state.entrance_fee_percentage / 100
        let prize_amount := wsub64 round.pool_balance commission
        TxResult.ok
          { rounds := lottery.rounds.set current_round_id
              { round with
                winner_address := some winning_ticket.owner
                winner_ticket_index := some winner_ticket_index
                status := RoundStatus.Closed
                commission_balance := commission
                pool_balance := prize_amount } }
    else
      TxResult.err LotteryError.RoundNotOpen lottery

/-- Source `ConsumeRandomness::pick_winner_for_lottery` (vrf.rs lines 163-192):
bounds-checks the request's round id (`InvalidRoundId`), requires status
`Open` (`RoundNotOpen`) and a nonempty ledger (`NoTicketsInRound`), then
records `randomness % ticket_count` as the winner and closes the round.
All checks precede every mutation, so an error leaves the lottery untouched
and the result is a plain `Except`. -/
def pick_winner_for_lottery (req : VrfRequest) (lottery : TokenLottery)
    (randomness : Nat) : Except LotteryError TokenLottery :=
  if hid : req.round_id < lottery.rounds.length then
    let round := lottery.rounds[req.round_id]
    if round.status = RoundStatus.Open then
      if ht : round.tickets.length = 0 then
        Except.error LotteryError.NoTicketsInRound
      else
        let winner_ticket_index := randomness % round.tickets.length
        let winning_ticket :=
          round.tickets.get ⟨winner_ticket_index, Nat.mod_lt _ (Nat.pos_of_ne_zero ht)⟩
        Except.ok
          { rounds := lottery.rounds.set req.round_id
              { round with
                winner_address := some winning_ticket.owner
                winner_ticket_index := some winner_ticket_index
                status := RoundStatus.Closed } }
    else
      Except.error LotteryError.RoundNotOpen
  else
    Except.error LotteryError.InvalidRoundId

/-- Account state of the `ConsumeRandomness` instruction (vrf.rs): the
request plus the two optional lottery accounts. -/
structure ConsumeCtx where
  vrf_request : VrfRequest
  token_lottery : Option TokenLottery
  sol_lottery : Option TokenLottery
deriving DecidableEq

/-- Source `consume_randomness_and_pick_winner` (vrf.rs lines 132-161): rejects an
already fulfilled request (`RandomnessAlreadyConsumed`); otherwise derives
pseudo-randomness from the clock (`slot * unix_timestamp * round_id`,
wrapping, truncated to `u64`), sets `fulfilled := true`, and then attempts
winner selection on the lottery account matching `token_mint` when that
account was supplied. Note the flag is set before winner selection runs, so
a selection failure returns the error with `fulfilled` already true in the
in-memory state. -/
def consume_randomness_and_pick_winner (ctx : ConsumeCtx) (slot : Nat)
    (unix_timestamp : Nat) : TxResult ConsumeCtx :=
  if ctx.vrf_request.fulfilled then
    TxResult.err LotteryError.RandomnessAlreadyConsumed ctx
  else
    let pseudo_randomness := (slot * unix_timestamp * ctx.vrf_request.round_id) % U64_MOD
    let req' := { ctx.vrf_request with fulfilled := true }
    match ctx.vrf_request.token_mint with
    | some _ =>
      match ctx.token_lottery with
      | some lottery =>
        match pick_winner_for_lottery req' lottery pseudo_randomness with
        | Except.ok l' => TxResult.ok { ctx with vrf_request := req', token_lottery := some l' }
        | Except.error e => TxResult.err e { ctx with vrf_request := req' }
      | none => TxResult.ok { ctx with vrf_request := req' }
    | none =>
      match ctx.sol_lottery with
      | some lottery =>
        match pick_winner_for_lottery req' lottery pseudo_randomness with
        | Except.ok l' => TxResult.ok { ctx with vrf_request := req', sol_lottery := some l' }
        | Except.error e => TxResult.err e { ctx with vrf_request := req' }
      | none => TxResult.ok { ctx with vrf_request := req' }

/-- Source `vrf_callback` (vrf.rs lines 216-227): the replay guard rejects a
request whose `fulfilled` flag is already set, else stores the delivered
32-byte value and sets the flag. -/
def vrf_callback (req : VrfRequest) (result : List Nat) : TxResult VrfRequest :=
  if req.fulfilled then
    TxResult.err LotteryError.RandomnessAlreadyConsumed req
  else
    TxResult.ok { req with randomness := some result, fulfilled := true }

/-- Source `claim_prize_sol` (lib.rs lines 237-263): indexes
`lottery.rounds[round_id]` with no bounds check (panic on an invalid id),
then requires status `Closed` (`RoundNotClosed`), the caller to be the
recorded winner (`NotTheWinner`) and the prize unclaimed
(`PrizeAlreadyClaimed`); on success sets `prize_claimed := true`. The
lamport transfers to winner and beneficiary are value movement performed by
the host and carry no further round mutation. -/
def claim_prize_sol (lottery : TokenLottery) (round_id : Nat) (winner : Pubkey) :
    TxResult TokenLottery :=
  if h : round_id < lottery.rounds.length then
    let round := lottery.rounds[round_id]
    if round.status = RoundStatus.Closed then
      if round.winner_address = some winner then
        if round.prize_claimed then
          TxResult.err LotteryError.PrizeAlreadyClaimed lottery
        else
          TxResult.ok
            { rounds := lottery.rounds.set round_id { round with prize_claimed := true } }
      else
        TxResult.err LotteryError.NotTheWinner lottery
    else
      TxResult.err LotteryError.RoundNotClosed lottery
  else
    TxResult.fatal

/-- Source `claim_prize_spl` (lib.rs lines 265-323): same guard sequence and round
mutation as `claim_prize_sol`, with the value movement done by SPL token
transfers instead of lamport arithmetic. -/
def claim_prize_spl (lottery : TokenLottery) (round_id : Nat) (winner : Pubkey) :
    TxResult TokenLottery :=
  if h : round_id < lottery.rounds.length then
    let round := lottery.rounds[round_id]
    if round.status = RoundStatus.Closed then
      if round.winner_address = some winner then
        if round.prize_claimed then
          TxResult.err LotteryError.PrizeAlreadyClaimed lottery
        else
          TxResult.ok
            { rounds := lottery.rounds.set round_id { round with prize_claimed := true } }
      else
        TxResult.err LotteryError.NotTheWinner lottery
    else
      TxResult.err LotteryError.RoundNotClosed lottery
  else
    TxResult.fatal

/-- Source `get_round_data` (admin.rs lines 111-134): bounds-checks the round id
(`InvalidRoundId`) before indexing, then returns a `RoundView`. -/
structure RoundView where
  round_id : Nat
  status : RoundStatus
  start_time : Int
  end_time : Int
  pool_balance : Nat
  commission_balance : Nat
  ticket_count : Nat
  winner_address : Option Pubkey
  winner_ticket_index : Option Nat
  prize_claimed : Bool
deriving DecidableEq

/-- Source `get_round_data` (admin.rs lines 111-134). -/
def get_round_data (lottery : TokenLottery) (round_id : Nat) :
    Except LotteryError RoundView :=
  if h : round_id < lottery.rounds.length then
    let round := lottery.rounds[round_id]
    Except.ok
      { round_id := round_id
        status := round.status
        start_time := round.start_time
        end_time := round.end_time
        pool_balance := round.pool_balance
        commission_balance := round.commission_balance
        ticket_count := round.tickets.length
        winner_address := round.winner_address
        winner_ticket_index := round.winner_ticket_index
        prize_claimed := round.prize_claimed }
  else
    Except.error LotteryError.InvalidRoundId

/-- Source `auto_close_round` (automation.rs lines 54-82): when a latest round
exists it requires status `Open` (`RoundNotOpen`) and
`now >= end_time` (`RoundStillActive`) and then marks the round
`PendingVrf`; the ticket ledger is never inspected, and with no rounds the
handler succeeds without touching anything. -/
def auto_close_round (lottery : TokenLottery) (now : Int) : TxResult TokenLottery :=
  match lottery.rounds.getLast? with
  | none => TxResult.ok lottery
  | some round =>
    if round.status = RoundStatus.Open then
      if round.end_time ≤ now then
        TxResult.ok
          { rounds := lottery.rounds.set (lottery.rounds.length - 1)
              { round with status := RoundStatus.PendingVrf } }
      else
        TxResult.err LotteryError.RoundStillActive lottery
    else
      TxResult.err LotteryError.RoundNotOpen lottery

/-- Source `check_upkeep` (automation.rs lines 7-18). -/
def check_upkeep (state : LotteryState) (now : Int) : Bool :=
  decide (state.last_timestamp < now) && state.has_active_lottery

/-- Source `get_next_round_time` (automation.rs lines 117-120). -/
def get_next_round_time (now : Int) : Int :=
  now - Int.tmod now ROUND_DURATION + ROUND_DURATION

/-- Source `perform_upkeep` (automation.rs lines 21-51): requires the upkeep
condition (`UpkeepNotNeeded`), advances `last_timestamp` to the next period
boundary and clears `has_active_lottery`. The loop over supported tokens
only emits log messages. -/
def perform_upkeep (state : LotteryState) (now : Int) : TxResult LotteryState :=
  if state.last_timestamp < now ∧ state.has_active_lottery = true then
    TxResult.ok
      { state with
        last_timestamp := get_next_round_time now
        has_active_lottery := false }
  else
    TxResult.err LotteryError.UpkeepNotNeeded state

/-- Source `perform_upkeep` viewed together with the asset pools: the instruction
context (automation.rs `PerformUpkeep`) holds only the registry account, so
the pool accounts are never read or written; the per-token loop in the body
(automation.rs lines 36-44) only logs. -/
def perform_upkeep_with_pools (state : LotteryState) (pools : List TokenLottery)
    (now : Int) : TxResult (LotteryState × List TokenLottery) :=
  match perform_upkeep state now with
  | TxResult.ok s' => TxResult.ok (s', pools)
  | TxResult.err e s => TxResult.err e (s, pools)
  | TxResult.fatal => TxResult.fatal

/-! ## Arithmetic and ledger helper lemmas -/

theorem wadd64_eq_of_lt {a b : Nat} (h : a + b < U64_MOD) : wadd64 a b = a + b :=
  Nat.mod_eq_of_lt h

theorem wmul64_eq_of_lt {a b : Nat} (h : a * b < U64_MOD) : wmul64 a b = a * b :=
  Nat.mod_eq_of_lt h

theorem wsub64_eq_of_le {a b : Nat} (hba : b ≤ a) (ha : a < U64_MOD) :
    wsub64 a b = a - b := by
  unfold wsub64
  have h1 : a + U64_MOD - b = (a - b) + U64_MOD := by omega
  rw [h1, Nat.add_mod_right, Nat.mod_eq_of_lt (by omega)]

theorem nonBonusPriceSum_append (xs ys : List Ticket) :
    nonBonusPriceSum (xs ++ ys) = nonBonusPriceSum xs + nonBonusPriceSum ys := by
  simp [nonBonusPriceSum, List.filter_append]

theorem nonBonusPriceSum_cons (t : Ticket) (ts : List Ticket) :
    nonBonusPriceSum (t :: ts) =
      (if t.is_bonus then 0 else t.price) + nonBonusPriceSum ts := by
  by_cases h : t.is_bonus <;> simp [nonBonusPriceSum, List.filter_cons, h]

theorem nonBonusPriceSum_replicate (n : Nat) (o : Pubkey) (pr : Nat) (ts : Int) :
    nonBonusPriceSum (List.replicate n ⟨o, pr, ts, false⟩) = n * pr := by
  induction n with
  | zero => simp [nonBonusPriceSum]
  | succ k ih =>
    rw [List.replicate_succ, nonBonusPriceSum_cons, ih]
    simp [Nat.succ_mul]
    omega

theorem ticketsPriceSum_eq_nonBonus {ts : List Ticket}
    (hb : ∀ t ∈ ts, t.is_bonus = true → t.price = 0) :
    ticketsPriceSum ts = nonBonusPriceSum ts := by
  induction ts with
  | nil => rfl
  | cons t rest ih =>
    have hb' : ∀ x ∈ rest, x.is_bonus = true → x.price = 0 :=
      fun x hx => hb x (List.mem_cons_of_mem _ hx)
    have hhd : ticketsPriceSum (t :: rest) = t.price + ticketsPriceSum rest := by
      simp [ticketsPriceSum]
    rw [hhd, nonBonusPriceSum_cons, ih hb']
    by_cases h : t.is_bonus
    · have h0 := hb t (List.mem_cons_self _ _) h
      simp [h, h0]
    · simp [h]

/-- One `add_tickets_to_round` call preserves the conservation invariant
and adds exactly the purchase's cost to `pool_balance + commission_balance`,
provided the fee is at most 100 percent and the running totals stay inside
`u64`. -/
theorem add_tickets_to_round_step (lottery : TokenLottery) (pd : PlayerData)
    (round_id count price player fee : Nat) (ts : Int) (r : Round)
    (hid : round_id < lottery.rounds.length)
    (hr : lottery.rounds[round_id] = r)
    (hfee : fee ≤ 100)
    (hov : (r.pool_balance + r.commission_balance + price * count) * 100 < U64_MOD)
    (hinv : nonBonusPriceSum r.tickets = r.pool_balance + r.commission_balance)
    (hb : ∀ t ∈ r.tickets, t.is_bonus = true → t.price = 0) :
    ∃ l' pd',
      add_tickets_to_round lottery pd round_id count price player fee ts =
        TxResult.ok (l', pd') ∧
      ∃ r', l'.rounds[round_id]? = some r' ∧
        nonBonusPriceSum r'.tickets = r'.pool_balance + r'.commission_balance ∧
        (∀ t ∈ r'.tickets, t.is_bonus = true → t.price = 0) ∧
        r'.pool_balance + r'.commission_balance =
          r.pool_balance + r.commission_balance + price * count := by
  have hc : price * count = price * count := rfl
  -- abbreviations for the wrapped quantities computed by the body
  have hS : r.pool_balance + r.commission_balance + price * count < U64_MOD := by
    have h100 : r.pool_balance + r.commission_balance + price * count
        ≤ (r.pool_balance + r.commission_balance + price * count) * 100 :=
      Nat.le_mul_of_pos_right _ (by norm_num)
    omega
  have htc_lt : price * count < U64_MOD := by omega
  have hmul : wmul64 price count = price * count := wmul64_eq_of_lt htc_lt
  have hfeemul : price * count * fee < U64_MOD := by
    have : price * count * fee ≤ (r.pool_balance + r.commission_balance + price * count) * 100 :=
      Nat.mul_le_mul (by omega) hfee
    omega
  have hmul2 : wmul64 (price * count) fee = price * count * fee := wmul64_eq_of_lt hfeemul
  have hcm_le : price * count * fee / 100 ≤ price * count := by
    have h1 : price * count * fee ≤ price * count * 100 :=
      Nat.mul_le_mul_left _ hfee
    have h2 : price * count * fee / 100 ≤ price * count * 100 / 100 :=
      Nat.div_le_div_right h1
    rwa [Nat.mul_div_cancel _ (by norm_num)] at h2
  have hsub : wsub64 (price * count) (price * count * fee / 100) =
      price * count - price * count * fee / 100 :=
    wsub64_eq_of_le hcm_le htc_lt
  have haddp : wadd64 r.pool_balance (price * count - price * count * fee / 100) =
      r.pool_balance + (price * count - price * count * fee / 100) := by
    apply wadd64_eq_of_lt
    omega
  have haddc : wadd64 r.commission_balance (price * count * fee / 100) =
      r.commission_balance + price * count * fee / 100 := by
    apply wadd64_eq_of_lt
    omega
  refine ⟨_, _, by rw [add_tickets_to_round, dif_pos hid], _,
    List.getElem?_set_self hid, ?_, ?_, ?_⟩
  · dsimp only
    rw [hr, hmul, hmul2, hsub, haddp, haddc]
    rw [nonBonusPriceSum_append, nonBonusPriceSum_append, nonBonusPriceSum_replicate, hinv]
    have hbonus : nonBonusPriceSum
        (if r.tickets.isEmpty then ([⟨player, 0, ts, true⟩] : List Ticket) else []) = 0 := by
      by_cases h : r.tickets.isEmpty <;> simp [h, nonBonusPriceSum]
    rw [hbonus, Nat.mul_comm count price]
    omega
  · dsimp only
    rw [hr]
    intro t ht hbt
    simp only [List.mem_append] at ht
    rcases ht with (ht | ht) | ht
    · exact hb t ht hbt
    · rw [List.eq_of_mem_replicate ht] at hbt
      simp at hbt
    · by_cases h : r.tickets.isEmpty
      · simp [h] at ht
        rw [ht]
      · simp [h] at ht
  · dsimp only
    rw [hr, hmul, hmul2, hsub, haddp, haddc]
    omega

/-- Claim C1: starting from any round whose ledger satisfies the
conservation invariant (in particular a freshly created round, where it is
`0 = 0 + 0`) and whose bonus tickets are zero-priced, any sequence of
`add_tickets_to_round` purchases preserves it: before the close-time split
the sum of the non-bonus ticket prices equals
`pool_balance + commission_balance`, and the bonus ticket does not change
the sum of all ticket prices. Hypotheses: the fee is at most 100 percent
(the registry enforces at most 20) and the round's total stake fits in
`u64`. -/
theorem c1_ledger_conservation (ps : List Purchase) (lottery : TokenLottery)
    (pd : PlayerData) (round_id fee : Nat) (l' : TokenLottery) (pd' : PlayerData)
    (r : Round)
    (hr : lottery.rounds[round_id]? = some r)
    (hfee : fee ≤ 100)
    (hinv : nonBonusPriceSum r.tickets = r.pool_balance + r.commission_balance)
    (hb : ∀ t ∈ r.tickets, t.is_bonus = true → t.price = 0)
    (hov : (r.pool_balance + r.commission_balance + (ps.map purchaseCost).sum) * 100 <
      U64_MOD)
    (hrun : applyPurchases lottery pd round_id fee ps = TxResult.ok (l', pd')) :
    ∃ r', l'.rounds[round_id]? = some r' ∧
      nonBonusPriceSum r'.tickets = r'.pool_balance + r'.commission_balance ∧
      ticketsPriceSum r'.tickets = nonBonusPriceSum r'.tickets := by
  induction ps generalizing lottery pd r with
  | nil =>
    simp only [applyPurchases, TxResult.ok.injEq, Prod.mk.injEq] at hrun
    obtain ⟨h1, h2⟩ := hrun
    subst h1
    exact ⟨r, hr, hinv, ticketsPriceSum_eq_nonBonus hb⟩
  | cons p ps ih =>
    have hid : round_id < lottery.rounds.length := by
      by_contra h
      rw [List.getElem?_eq_none (Nat.le_of_not_lt h)] at hr
      exact Option.noConfusion hr
    have hrg : lottery.rounds[round_id] = r := by
      rw [List.getElem?_eq_getElem hid] at hr
      exact Option.some.inj hr
    have hcost : purchaseCost p = p.ticket_price * p.count := rfl
    have hov1 : (r.pool_balance + r.commission_balance + p.ticket_price * p.count) * 100 <
        U64_MOD := by
      have hle : r.pool_balance + r.commission_balance + p.ticket_price * p.count
          ≤ r.pool_balance + r.commission_balance + ((p :: ps).map purchaseCost).sum := by
        simp only [List.map_cons, List.sum_cons, hcost]
        omega
      have := Nat.mul_le_mul_right 100 hle
      omega
    obtain ⟨l₁, pd₁, hok, r₁, hr₁, hinv₁, hb₁, hsum₁⟩ :=
      add_tickets_to_round_step lottery pd round_id p.count p.ticket_price p.player fee
        p.timestamp r hid hrg hfee hov1 hinv hb
    rw [applyPurchases, hok] at hrun
    have hov2 : (r₁.pool_balance + r₁.commission_balance + (ps.map purchaseCost).sum) * 100 <
        U64_MOD := by
      rw [hsum₁]
      simp only [List.map_cons, List.sum_cons, hcost] at hov
      have : r.pool_balance + r.commission_balance + p.ticket_price * p.count +
          (ps.map purchaseCost).sum =
          r.pool_balance + r.commission_balance +
            (p.ticket_price * p.count + (ps.map purchaseCost).sum) := by omega
      rw [this]
      exact hov
    exact ih l₁ pd₁ r₁ hr₁ hinv₁ hb₁ hov2 hrun

/-- Witness for claim C1 at the spec scenario: a fresh round, player 7 buys
3 tickets at price 100 (receiving the bonus ticket), player 8 buys 1; with a
10 percent fee the final ledger carries 360 + 40 and the non-bonus price sum
is 400. -/
theorem c1_ledger_conservation_witness :
    (10 : Nat) ≤ 100 ∧
    (0 + 0 + (([⟨3, 100, 7, 0⟩, ⟨1, 100, 8, 0⟩] : List Purchase).map purchaseCost).sum) *
        100 < U64_MOD ∧
    ∃ r',
      (⟨[⟨RoundStatus.Open, 0, 900, 360, 40,
          [⟨7, 100, 0, false⟩, ⟨7, 100, 0, false⟩, ⟨7, 100, 0, false⟩,
           ⟨7, 0, 0, true⟩, ⟨8, 100, 0, false⟩],
          none, none, false⟩]⟩ : TokenLottery).rounds[0]? = some r' ∧
      nonBonusPriceSum r'.tickets = r'.pool_balance + r'.commission_balance ∧
      ticketsPriceSum r'.tickets = nonBonusPriceSum r'.tickets := by
  refine ⟨by norm_num, by decide, ?_⟩
  exact c1_ledger_conservation [⟨3, 100, 7, 0⟩, ⟨1, 100, 8, 0⟩] ⟨[freshRound 0]⟩ ⟨0, false⟩
    0 10 _ ⟨5, true⟩ (freshRound 0) (by decide) (by norm_num) (by decide) (by decide)
    (by decide) (by decide)

/-- Claim C2 (amended): winner selection requires the round to be `Open`
(a `PendingVrf` round is rejected with `RoundNotOpen`, not resolved) and a
nonempty ticket ledger (`NoTicketsInRound`); on success it sets
`winner_ticket_index = randomness % ticket_count`, `winner_address` to that
ticket's owner, and status `Closed`. -/
theorem c2_select_winner (req : VrfRequest) (lottery : TokenLottery) (randomness : Nat)
    (hid : req.round_id < lottery.rounds.length) :
    (lottery.rounds[req.round_id].status ≠ RoundStatus.Open →
      pick_winner_for_lottery req lottery randomness =
        Except.error LotteryError.RoundNotOpen) ∧
    (lottery.rounds[req.round_id].status = RoundStatus.Open →
      lottery.rounds[req.round_id].tickets.length = 0 →
      pick_winner_for_lottery req lottery randomness =
        Except.error LotteryError.NoTicketsInRound) ∧
    (∀ ht : lottery.rounds[req.round_id].tickets.length ≠ 0,
      lottery.rounds[req.round_id].status = RoundStatus.Open →
      pick_winner_for_lottery req lottery randomness =
        Except.ok
          { rounds := lottery.rounds.set req.round_id
              { lottery.rounds[req.round_id] with
                winner_address :=
                  some (lottery.rounds[req.round_id].tickets.get
                    ⟨randomness % lottery.rounds[req.round_id].tickets.length,
                     Nat.mod_lt _ (Nat.pos_of_ne_zero ht)⟩).owner
                winner_ticket_index :=
                  some (randomness % lottery.rounds[req.round_id].tickets.length)
                status := RoundStatus.Closed } }) := by
  refine ⟨?_, ?_, ?_⟩
  · intro hs
    rw [pick_winner_for_lottery, dif_pos hid, if_neg hs]
  · intro hs ht
    rw [pick_winner_for_lottery, dif_pos hid, if_pos hs, dif_pos ht]
  · intro ht hs
    rw [pick_winner_for_lottery, dif_pos hid, if_pos hs, dif_neg ht]

/-- Witness for claim C2, the spec scenario: ledger
`[A, A, A, A(bonus), B]` with `A = 7`, `B = 8`, randomness 7; winner index
`7 % 5 = 2`, winner `A`, status `Closed`. -/
theorem c2_select_winner_witness :
    pick_winner_for_lottery ⟨0, none, 0, false, none⟩
      ⟨[⟨RoundStatus.Open, 0, 900, 360, 40,
          [⟨7, 100, 0, false⟩, ⟨7, 100, 0, false⟩, ⟨7, 100, 0, false⟩,
           ⟨7, 0, 0, true⟩, ⟨8, 100, 0, false⟩],
          none, none, false⟩]⟩ 7 =
      Except.ok
        ⟨[⟨RoundStatus.Closed, 0, 900, 360, 40,
            [⟨7, 100, 0, false⟩, ⟨7, 100, 0, false⟩, ⟨7, 100, 0, false⟩,
             ⟨7, 0, 0, true⟩, ⟨8, 100, 0, false⟩],
            some 7, some 2, false⟩]⟩ := by
  have h := (c2_select_winner ⟨0, none, 0, false, none⟩
    ⟨[⟨RoundStatus.Open, 0, 900, 360, 40,
        [⟨7, 100, 0, false⟩, ⟨7, 100, 0, false⟩, ⟨7, 100, 0, false⟩,
         ⟨7, 0, 0, true⟩, ⟨8, 100, 0, false⟩],
        none, none, false⟩]⟩ 7 (by decide)).2.2 (by decide) (by decide)
  rw [h]
  rfl

/-- Counterexample to claim C2 as stated: a round in the `PendingVrf`
(spec: PendingRandomness) state with a nonempty ticket ledger is rejected
with `RoundNotOpen`; winner selection does not accept the
pending-randomness status. -/
theorem c2_pendingvrf_rejected_cex :
    pick_winner_for_lottery ⟨0, none, 0, false, none⟩
      ⟨[⟨RoundStatus.PendingVrf, 0, 900, 90, 10, [⟨7, 100, 0, false⟩],
          none, none, false⟩]⟩ 7 =
      Except.error LotteryError.RoundNotOpen := by
  rfl

/-- Claim C3: `claim_prize_sol` and `claim_prize_spl` succeed exactly when
the round is `Closed`, the caller is the recorded winner and the prize is
unclaimed, setting `prize_claimed := true`; a caller that is not the winner
is rejected with `NotTheWinner` with the lottery state untouched (so
`prize_claimed` stays false), and a second invocation by the winner after a
success is rejected with `PrizeAlreadyClaimed`. -/
theorem c3_claim_prize (lottery : TokenLottery) (round_id : Nat)
    (caller other : Pubkey) (hid : round_id < lottery.rounds.length) :
    (lottery.rounds[round_id].status = RoundStatus.Closed →
     lottery.rounds[round_id].winner_address = some caller →
     lottery.rounds[round_id].prize_claimed = false →
      claim_prize_sol lottery round_id caller =
        TxResult.ok (TokenLottery.mk (lottery.rounds.set round_id
          { lottery.rounds[round_id] with prize_claimed := true })) ∧
      claim_prize_spl lottery round_id caller =
        TxResult.ok (TokenLottery.mk (lottery.rounds.set round_id
          { lottery.rounds[round_id] with prize_claimed := true }))) ∧
    (lottery.rounds[round_id].status = RoundStatus.Closed →
     lottery.rounds[round_id].winner_address ≠ some other →
      claim_prize_sol lottery round_id other =
        TxResult.err LotteryError.NotTheWinner lottery ∧
      claim_prize_spl lottery round_id other =
        TxResult.err LotteryError.NotTheWinner lottery) ∧
    (∀ l', claim_prize_sol lottery round_id caller = TxResult.ok l' →
      claim_prize_sol l' round_id caller =
        TxResult.err LotteryError.PrizeAlreadyClaimed l') ∧
    (∀ l', claim_prize_spl lottery round_id caller = TxResult.ok l' →
      claim_prize_spl l' round_id caller =
        TxResult.err LotteryError.PrizeAlreadyClaimed l') := by
  have hid' : round_id < (lottery.rounds.set round_id
      { lottery.rounds[round_id] with prize_claimed := true }).length := by
    simpa using hid
  refine ⟨?_, ?_, ?_, ?_⟩
  · intro hs hw hp
    constructor
    · rw [claim_prize_sol, dif_pos hid, if_pos hs, if_pos hw, if_neg (by simp [hp])]
    · rw [claim_prize_spl, dif_pos hid, if_pos hs, if_pos hw, if_neg (by simp [hp])]
  · intro hs hw
    constructor
    · rw [claim_prize_sol, dif_pos hid, if_pos hs, if_neg hw]
    · rw [claim_prize_spl, dif_pos hid, if_pos hs, if_neg hw]
  · intro l' hok
    by_cases hs : lottery.rounds[round_id].status = RoundStatus.Closed
    · by_cases hw : lottery.rounds[round_id].winner_address = some caller
      · by_cases hp : lottery.rounds[round_id].prize_claimed = true
        · rw [claim_prize_sol, dif_pos hid, if_pos hs, if_pos hw, if_pos hp] at hok
          exact absurd hok (by simp)
        · rw [claim_prize_sol, dif_pos hid, if_pos hs, if_pos hw, if_neg hp] at hok
          obtain rfl : _ = l' := TxResult.ok.inj hok
          rw [claim_prize_sol, dif_pos hid']
          rw [if_pos (by simp [List.getElem_set_self, hs]),
            if_pos (by simp [List.getElem_set_self, hw]),
            if_pos (by simp [List.getElem_set_self])]
      · rw [claim_prize_sol, dif_pos hid, if_pos hs, if_neg hw] at hok
        exact absurd hok (by simp)
    · rw [claim_prize_sol, dif_pos hid, if_neg hs] at hok
      exact absurd hok (by simp)
  · intro l' hok
    by_cases hs : lottery.rounds[round_id].status = RoundStatus.Closed
    · by_cases hw : lottery.rounds[round_id].winner_address = some caller
      · by_cases hp : lottery.rounds[round_id].prize_claimed = true
        · rw [claim_prize_spl, dif_pos hid, if_pos hs, if_pos hw, if_pos hp] at hok
          exact absurd hok (by simp)
        · rw [claim_prize_spl, dif_pos hid, if_pos hs, if_pos hw, if_neg hp] at hok
          obtain rfl : _ = l' := TxResult.ok.inj hok
          rw [claim_prize_spl, dif_pos hid']
          rw [if_pos (by simp [List.getElem_set_self, hs]),
            if_pos (by simp [List.getElem_set_self, hw]),
            if_pos (by simp [List.getElem_set_self])]
      · rw [claim_prize_spl, dif_pos hid, if_pos hs, if_neg hw] at hok
        exact absurd hok (by simp)
    · rw [claim_prize_spl, dif_pos hid, if_neg hs] at hok
      exact absurd hok (by simp)

/-- Witness for claim C3: a closed round with winner 7; caller 8 is
rejected with `NotTheWinner` leaving the state unchanged, caller 7 succeeds,
and the double-claim conjuncts apply to the successful run. -/
theorem c3_claim_prize_witness :
    ((⟨[⟨RoundStatus.Closed, 0, 900, 324, 36, [⟨7, 100, 0, false⟩],
        some 7, some 0, false⟩]⟩ : TokenLottery).rounds[0].status = RoundStatus.Closed) ∧
    claim_prize_sol
      ⟨[⟨RoundStatus.Closed, 0, 900, 324, 36, [⟨7, 100, 0, false⟩],
          some 7, some 0, false⟩]⟩ 0 8 =
      TxResult.err LotteryError.NotTheWinner
        ⟨[⟨RoundStatus.Closed, 0, 900, 324, 36, [⟨7, 100, 0, false⟩],
            some 7, some 0, false⟩]⟩ := by
  have h := c3_claim_prize
    ⟨[⟨RoundStatus.Closed, 0, 900, 324, 36, [⟨7, 100, 0, false⟩], some 7, some 0, false⟩]⟩
    0 7 8 (by decide)
  exact ⟨by decide, (h.2.1 (by decide) (by decide)).1⟩

/-- Claim C4: `vrf_callback` rejects an already fulfilled request with
`RandomnessAlreadyConsumed` without touching it; on an unfulfilled request
it stores the delivered value and sets `fulfilled := true`; consequently a
second invocation for the same request always fails, so `fulfilled` goes
false to true at most once. -/
theorem c4_vrf_callback_once (req : VrfRequest) (v₁ v₂ : List Nat) :
    (req.fulfilled = true →
      vrf_callback req v₁ = TxResult.err LotteryError.RandomnessAlreadyConsumed req) ∧
    (req.fulfilled = false →
      vrf_callback req v₁ =
        TxResult.ok { req with randomness := some v₁, fulfilled := true }) ∧
    (∀ r', vrf_callback req v₁ = TxResult.ok r' →
      r'.fulfilled = true ∧ r'.randomness = some v₁ ∧
      vrf_callback r' v₂ = TxResult.err LotteryError.RandomnessAlreadyConsumed r') := by
  refine ⟨fun h => by rw [vrf_callback, if_pos h], fun h => by rw [vrf_callback, if_neg (by simp [h])],
    fun r' hok => ?_⟩
  by_cases h : req.fulfilled = true
  · rw [vrf_callback, if_pos h] at hok
    exact absurd hok (by simp)
  · rw [vrf_callback, if_neg h] at hok
    obtain rfl : _ = r' := TxResult.ok.inj hok
    refine ⟨rfl, rfl, ?_⟩
    rw [vrf_callback, if_pos rfl]

/-- Witness for claim C4 on a concrete unfulfilled request. -/
theorem c4_vrf_callback_once_witness :
    (⟨0, none, 0, false, none⟩ : VrfRequest).fulfilled = false ∧
    vrf_callback ⟨0, none, 0, false, none⟩ [5] =
      TxResult.ok ⟨0, none, 0, true, some [5]⟩ := by
  exact ⟨rfl, (c4_vrf_callback_once ⟨0, none, 0, false, none⟩ [5] [6]).2.1 rfl⟩

/-- Claim C5: when `close_round_and_pick_winner` closes the latest round
with accrued `pool_balance` P and fee percentage f, it computes a second
split on P: the stored `commission_balance` becomes `P * f / 100`
(overwriting the per-purchase accrual) and `pool_balance` becomes
`P - P * f / 100`. Hypotheses: fee at most 100 percent and P, `P * f`
inside `u64`. -/
theorem c5_close_time_second_split (state : LotteryState) (lottery : TokenLottery)
    (randomness : Nat)
    (hlt : lottery.rounds.length - 1 < lottery.rounds.length)
    (hopen : lottery.rounds[lottery.rounds.length - 1].status = RoundStatus.Open)
    (ht : lottery.rounds[lottery.rounds.length - 1].tickets.length ≠ 0)
    (hfee : state.entrance_fee_percentage ≤ 100)
    (hP : lottery.rounds[lottery.rounds.length - 1].pool_balance < U64_MOD)
    (hPf : lottery.rounds[lottery.rounds.length - 1].pool_balance *
      state.entrance_fee_percentage < U64_MOD) :
    ∃ l', close_round_and_pick_winner state lottery randomness = TxResult.ok l' ∧
      ∃ h2 : lottery.rounds.length - 1 < l'.rounds.length,
        l'.rounds[lottery.rounds.length - 1].commission_balance =
          lottery.rounds[lottery.rounds.length - 1].pool_balance *
            state.entrance_fee_percentage / 100 ∧
        l'.rounds[lottery.rounds.length - 1].pool_balance =
          lottery.rounds[lottery.rounds.length - 1].pool_balance -
            lottery.rounds[lottery.rounds.length - 1].pool_balance *
              state.entrance_fee_percentage / 100 := by
  have hne : ¬ (lottery.rounds.length = 0) := by omega
  have hmul : wmul64 (lottery.rounds[lottery.rounds.length - 1].pool_balance)
      state.entrance_fee_percentage =
      lottery.rounds[lottery.rounds.length - 1].pool_balance *
        state.entrance_fee_percentage := wmul64_eq_of_lt hPf
  have hcm_le : lottery.rounds[lottery.rounds.length - 1].pool_balance *
      state.entrance_fee_percentage / 100 ≤
      lottery.rounds[lottery.rounds.length - 1].pool_balance := by
    have h1 := Nat.div_le_div_right (c := 100)
      (Nat.mul_le_mul_left (lottery.rounds[lottery.rounds.length - 1].pool_balance) hfee)
    rwa [Nat.mul_div_cancel _ (by norm_num)] at h1
  have hsub : wsub64 (lottery.rounds[lottery.rounds.length - 1].pool_balance)
      (lottery.rounds[lottery.rounds.length - 1].pool_balance *
        state.entrance_fee_percentage / 100) =
      lottery.rounds[lottery.rounds.length - 1].pool_balance -
        lottery.rounds[lottery.rounds.length - 1].pool_balance *
          state.entrance_fee_percentage / 100 :=
    wsub64_eq_of_le hcm_le hP
  rw [close_round_and_pick_winner, dif_neg hne]
  simp only [List.get_eq_getElem]
  rw [if_pos hopen, dif_neg ht]
  refine ⟨_, rfl, ?_, ?_, ?_⟩
  · simpa using hlt
  · rw [List.getElem_set_self (by simpa using hlt)]
    dsimp only
    rw [hmul]
  · rw [List.getElem_set_self (by simpa using hlt)]
    dsimp only
    rw [hmul, hsub]

/-- Witness for claim C5: one open round with accrued pool 360 and
commission 40, fee 10 percent; the close overwrites the commission with 36
and the pool with 324. -/
theorem c5_close_time_second_split_witness :
    ∃ l', close_round_and_pick_winner ⟨1, 10, 2, [], 0, false⟩
        ⟨[⟨RoundStatus.Open, 0, 900, 360, 40, [⟨7, 100, 0, false⟩],
            none, none, false⟩]⟩ 3 = TxResult.ok l' ∧
      ∃ h2 : (⟨[⟨RoundStatus.Open, 0, 900, 360, 40, [⟨7, 100, 0, false⟩],
          none, none, false⟩]⟩ : TokenLottery).rounds.length - 1 < l'.rounds.length,
        l'.rounds[(⟨[⟨RoundStatus.Open, 0, 900, 360, 40, [⟨7, 100, 0, false⟩],
            none, none, false⟩]⟩ : TokenLottery).rounds.length - 1].commission_balance =
          (360 : Nat) * 10 / 100 ∧
        l'.rounds[(⟨[⟨RoundStatus.Open, 0, 900, 360, 40, [⟨7, 100, 0, false⟩],
            none, none, false⟩]⟩ : TokenLottery).rounds.length - 1].pool_balance =
          (360 : Nat) - 360 * 10 / 100 :=
  c5_close_time_second_split ⟨1, 10, 2, [], 0, false⟩
    ⟨[⟨RoundStatus.Open, 0, 900, 360, 40, [⟨7, 100, 0, false⟩], none, none, false⟩]⟩ 3
    (by decide) (by decide) (by decide) (by norm_num) (by decide) (by decide)

/-- Claim C6 (amended): every modelled operation other than
`consume_randomness_and_pick_winner` leaves its state unchanged when it
returns an error; `consume_randomness_and_pick_winner` never partially
mutates the lottery accounts on error, but it sets the request's
`fulfilled` flag before winner selection runs, so when selection fails the
returned in-memory state has `fulfilled = true` (the host transaction
rollback, outside the engine, is what discards it). Covered operations:
`vrf_callback`, `claim_prize_sol`, `claim_prize_spl`, `auto_close_round`,
`perform_upkeep`, `close_round_and_pick_winner`, `add_tickets_to_round`
(which has no clean error path at all) and `perform_upkeep_with_pools`. -/
theorem c6_error_state_mutation :
    (∀ (ctx : ConsumeCtx) (slot ts : Nat) (e : LotteryError) (st' : ConsumeCtx),
      consume_randomness_and_pick_winner ctx slot ts = TxResult.err e st' →
      st'.token_lottery = ctx.token_lottery ∧ st'.sol_lottery = ctx.sol_lottery ∧
        (st' = ctx ∨
          st' = { ctx with vrf_request := { ctx.vrf_request with fulfilled := true } })) ∧
    (∀ (req : VrfRequest) (v : List Nat) (e : LotteryError) (r' : VrfRequest),
      vrf_callback req v = TxResult.err e r' → r' = req) ∧
    (∀ (l : TokenLottery) (rid : Nat) (c : Pubkey) (e : LotteryError) (l' : TokenLottery),
      claim_prize_sol l rid c = TxResult.err e l' → l' = l) ∧
    (∀ (l : TokenLottery) (rid : Nat) (c : Pubkey) (e : LotteryError) (l' : TokenLottery),
      claim_prize_spl l rid c = TxResult.err e l' → l' = l) ∧
    (∀ (l : TokenLottery) (now : Int) (e : LotteryError) (l' : TokenLottery),
      auto_close_round l now = TxResult.err e l' → l' = l) ∧
    (∀ (s : LotteryState) (now : Int) (e : LotteryError) (s' : LotteryState),
      perform_upkeep s now = TxResult.err e s' → s' = s) ∧
    (∀ (st : LotteryState) (l : TokenLottery) (rnd : Nat) (e : LotteryError)
        (l' : TokenLottery),
      close_round_and_pick_winner st l rnd = TxResult.err e l' → l' = l) ∧
    (∀ (l : TokenLottery) (pd : PlayerData) (rid cnt price player fee : Nat) (ts : Int)
        (e : LotteryError) (s' : TokenLottery × PlayerData),
      add_tickets_to_round l pd rid cnt price player fee ts ≠ TxResult.err e s') ∧
    (∀ (s : LotteryState) (pools : List TokenLottery) (now : Int) (e : LotteryError)
        (ps : LotteryState × List TokenLottery),
      perform_upkeep_with_pools s pools now = TxResult.err e ps → ps = (s, pools)) := by
  refine ⟨?_, ?_, ?_, ?_, ?_, ?_, ?_, ?_, ?_⟩
  · intro ctx slot ts e st' h
    obtain ⟨⟨rid, tm, ra, ff, rd⟩, tl, sl⟩ := ctx
    rw [consume_randomness_and_pick_winner] at h
    by_cases hf : ff = true
    · rw [if_pos hf] at h
      injection h with h1 h2
      subst h2
      exact ⟨rfl, rfl, Or.inl rfl⟩
    · rw [if_neg hf] at h
      dsimp only at h
      cases tm with
      | some m =>
        cases tl with
        | some lot =>
          dsimp only at h
          cases hp : pick_winner_for_lottery ⟨rid, some m, ra, true, rd⟩ lot
              (slot * ts * rid % U64_MOD) with
          | ok l2 =>
            rw [hp] at h
            exact absurd h (by simp)
          | error e2 =>
            rw [hp] at h
            injection h with h1 h2
            subst h2
            exact ⟨rfl, rfl, Or.inr rfl⟩
        | none =>
          exact absurd h (by simp)
      | none =>
        cases sl with
        | some lot =>
          dsimp only at h
          cases hp : pick_winner_for_lottery ⟨rid, none, ra, true, rd⟩ lot
              (slot * ts * rid % U64_MOD) with
          | ok l2 =>
            rw [hp] at h
            exact absurd h (by simp)
          | error e2 =>
            rw [hp] at h
            injection h with h1 h2
            subst h2
            exact ⟨rfl, rfl, Or.inr rfl⟩
        | none =>
          exact absurd h (by simp)
  · intro req v e r' h
    rw [vrf_callback] at h
    by_cases hf : req.fulfilled
    · rw [if_pos hf] at h
      injection h with h1 h2
      exact h2.symm
    · rw [if_neg hf] at h
      exact absurd h (by simp)
  · intro l rid c e l' h
    rw [claim_prize_sol] at h
    by_cases hid : rid < l.rounds.length
    · rw [dif_pos hid] at h
      dsimp only at h
      by_cases hs : l.rounds[rid].status = RoundStatus.Closed
      · rw [if_pos hs] at h
        by_cases hw : l.rounds[rid].winner_address = some c
        · rw [if_pos hw] at h
          by_cases hp : l.rounds[rid].prize_claimed = true
          · rw [if_pos hp] at h
            injection h with h1 h2
            exact h2.symm
          · rw [if_neg hp] at h
            exact absurd h (by simp)
        · rw [if_neg hw] at h
          injection h with h1 h2
          exact h2.symm
      · rw [if_neg hs] at h
        injection h with h1 h2
        exact h2.symm
    · rw [dif_neg hid] at h
      exact absurd h (by simp)
  · intro l rid c e l' h
    rw [claim_prize_spl] at h
    by_cases hid : rid < l.rounds.length
    · rw [dif_pos hid] at h
      dsimp only at h
      by_cases hs : l.rounds[rid].status = RoundStatus.Closed
      · rw [if_pos hs] at h
        by_cases hw : l.rounds[rid].winner_address = some c
        · rw [if_pos hw] at h
          by_cases hp : l.rounds[rid].prize_claimed = true
          · rw [if_pos hp] at h
            injection h with h1 h2
            exact h2.symm
          · rw [if_neg hp] at h
            exact absurd h (by simp)
        · rw [if_neg hw] at h
          injection h with h1 h2
          exact h2.symm
      · rw [if_neg hs] at h
        injection h with h1 h2
        exact h2.symm
    · rw [dif_neg hid] at h
      exact absurd h (by simp)
  · intro l now e l' h
    rw [auto_close_round] at h
    cases hg : l.rounds.getLast? with
    | none =>
      rw [hg] at h
      exact absurd h (by simp)
    | some r =>
      rw [hg] at h
      dsimp only at h
      by_cases hs : r.status = RoundStatus.Open
      · rw [if_pos hs] at h
        by_cases he : r.end_time ≤ now
        · rw [if_pos he] at h
          exact absurd h (by simp)
        · rw [if_neg he] at h
          injection h with h1 h2
          exact h2.symm
      · rw [if_neg hs] at h
        injection h with h1 h2
        exact h2.symm
  · intro s now e s' h
    rw [perform_upkeep] at h
    by_cases hc : s.last_timestamp < now ∧ s.has_active_lottery = true
    · rw [if_pos hc] at h
      exact absurd h (by simp)
    · rw [if_neg hc] at h
      injection h with h1 h2
      exact h2.symm
  · intro st l rnd e l' h
    rw [close_round_and_pick_winner] at h
    by_cases hne : l.rounds.length = 0
    · rw [dif_pos hne] at h
      injection h with h1 h2
      exact h2.symm
    · rw [dif_neg hne] at h
      dsimp only at h
      split at h
      · split at h
        · injection h with h1 h2
          exact h2.symm
        · exact absurd h (by simp)
      · injection h with h1 h2
        exact h2.symm
  · intro l pd rid cnt price player fee ts e s'
    rw [add_tickets_to_round]
    by_cases hid : rid < l.rounds.length
    · rw [dif_pos hid]
      simp
    · rw [dif_neg hid]
      simp
  · intro s pools now e ps h
    rw [perform_upkeep_with_pools] at h
    cases hp : perform_upkeep s now with
    | ok s1 =>
      rw [hp] at h
      exact absurd h (by simp)
    | err e1 s1 =>
      rw [hp] at h
      injection h with h1 h2
      rw [perform_upkeep] at hp
      by_cases hc : s.last_timestamp < now ∧ s.has_active_lottery = true
      · rw [if_pos hc] at hp
        exact absurd hp (by simp)
      · rw [if_neg hc] at hp
        injection hp with hp1 hp2
        rw [← h2, hp2]
    | fatal =>
      rw [hp] at h
      exact absurd h (by simp)

/-- Witness for claim C6's amended statement, at a concrete failing
`consume_randomness_and_pick_winner` run (empty SOL lottery, so winner
selection fails with `InvalidRoundId`). -/
theorem c6_error_state_mutation_witness :
    (⟨⟨0, none, 0, true, none⟩, none, some ⟨[]⟩⟩ : ConsumeCtx).token_lottery =
      (⟨⟨0, none, 0, false, none⟩, none, some ⟨[]⟩⟩ : ConsumeCtx).token_lottery ∧
    (⟨⟨0, none, 0, true, none⟩, none, some ⟨[]⟩⟩ : ConsumeCtx).sol_lottery =
      (⟨⟨0, none, 0, false, none⟩, none, some ⟨[]⟩⟩ : ConsumeCtx).sol_lottery ∧
    ((⟨⟨0, none, 0, true, none⟩, none, some ⟨[]⟩⟩ : ConsumeCtx) =
        ⟨⟨0, none, 0, false, none⟩, none, some ⟨[]⟩⟩ ∨
      (⟨⟨0, none, 0, true, none⟩, none, some ⟨[]⟩⟩ : ConsumeCtx) =
        { (⟨⟨0, none, 0, false, none⟩, none, some ⟨[]⟩⟩ : ConsumeCtx) with
            vrf_request :=
              { (⟨⟨0, none, 0, false, none⟩, none, some ⟨[]⟩⟩ : ConsumeCtx).vrf_request with
                  fulfilled := true } }) :=
  c6_error_state_mutation.1 ⟨⟨0, none, 0, false, none⟩, none, some ⟨[]⟩⟩ 5 5
    LotteryError.InvalidRoundId ⟨⟨0, none, 0, true, none⟩, none, some ⟨[]⟩⟩ (by rfl)

/-- Counterexample to claim C6 as stated: when winner selection inside
`consume_randomness_and_pick_winner` fails (here with `InvalidRoundId` on an
empty round list), the operation body has already set the request's
`fulfilled` flag, so the in-memory state returned alongside the error has
`fulfilled = true` — the flag-setting write precedes the failing check. -/
theorem c6_partial_write_cex :
    consume_randomness_and_pick_winner ⟨⟨0, none, 0, false, none⟩, none, some ⟨[]⟩⟩ 5 5 =
      TxResult.err LotteryError.InvalidRoundId ⟨⟨0, none, 0, true, none⟩, none, some ⟨[]⟩⟩ ∧
    (⟨0, none, 0, true, none⟩ : VrfRequest).fulfilled = true ∧
    (⟨0, none, 0, false, none⟩ : VrfRequest).fulfilled = false := by
  exact ⟨rfl, rfl, rfl⟩

/-- Claim C7 (amended): when the pool's latest round is not both `Open` and
satisfying `now < end_time` (or no round exists), `get_or_create_round`
appends a new round with `round_id = rounds.length`, status `Open`,
`start_time = now`, `end_time` equal to the next `ROUND_DURATION` boundary
`now - (now tmod ROUND_DURATION) + ROUND_DURATION` (not `now +
ROUND_DURATION`), zero balances and an empty ledger, marking the registry
active; otherwise it returns the id of the existing latest round
unchanged. -/
theorem c7_get_or_create_round (lottery : TokenLottery) (state : LotteryState)
    (now : Int) :
    (hasActiveRound lottery now = true ↔
      ∃ last, lottery.rounds.getLast? = some last ∧
        last.status = RoundStatus.Open ∧ now < last.end_time) ∧
    (hasActiveRound lottery now = true →
      get_or_create_round lottery state now = (lottery, state, lottery.rounds.length - 1)) ∧
    (hasActiveRound lottery now = false →
      get_or_create_round lottery state now =
        (TokenLottery.mk (lottery.rounds ++
            [⟨RoundStatus.Open, now, now - Int.tmod now ROUND_DURATION + ROUND_DURATION,
              0, 0, [], none, none, false⟩]),
         { state with last_timestamp := now, has_active_lottery := true },
         lottery.rounds.length)) := by
  refine ⟨?_, ?_, ?_⟩
  · rw [hasActiveRound]
    cases hg : lottery.rounds.getLast? with
    | none => simp
    | some last => simp
  · intro hA
    rw [get_or_create_round, if_pos hA]
  · intro hA
    rw [get_or_create_round, if_neg (by rw [hA]; exact Bool.false_ne_true)]
    rfl

/-- Witness for claim C7's amended statement: creating the first round at
`now = 1` yields `end_time = 900`. -/
theorem c7_get_or_create_round_witness :
    hasActiveRound ⟨[]⟩ 1 = false ∧
    get_or_create_round ⟨[]⟩ ⟨1, 10, 2, [], 0, false⟩ 1 =
      (TokenLottery.mk ((⟨[]⟩ : TokenLottery).rounds ++
          [⟨RoundStatus.Open, 1, 1 - Int.tmod 1 ROUND_DURATION + ROUND_DURATION,
            0, 0, [], none, none, false⟩]),
       { (⟨1, 10, 2, [], 0, false⟩ : LotteryState) with
           last_timestamp := 1, has_active_lottery := true },
       (⟨[]⟩ : TokenLottery).rounds.length) :=
  ⟨by rfl, (c7_get_or_create_round ⟨[]⟩ ⟨1, 10, 2, [], 0, false⟩ 1).2.2 (by rfl)⟩

/-- Counterexample to claim C7 as stated: at `now = 1` the created round's
`end_time` is the period boundary 900, not `now + ROUND_DURATION = 901`. -/
theorem c7_end_time_cex :
    (get_or_create_round ⟨[]⟩ ⟨1, 10, 2, [], 0, false⟩ 1).1.rounds =
      [⟨RoundStatus.Open, 1, 900, 0, 0, [], none, none, false⟩] ∧
    (900 : Int) ≠ 1 + ROUND_DURATION := by
  exact ⟨by decide, by decide⟩

/-- Claim C8 (amended): `auto_close_round` on the latest round requires
status `Open` (`RoundNotOpen`) and `now ≥ end_time` (`RoundStillActive`)
and then marks the round `PendingVrf`; the ticket ledger is never checked,
so a round with zero tickets is closed for randomness rather than rejected
with `NoTicketsInRound`, and with no rounds at all the handler succeeds
without any change. -/
theorem c8_auto_close_round (lottery : TokenLottery) (now : Int) (r : Round)
    (hr : lottery.rounds.getLast? = some r) :
    (r.status ≠ RoundStatus.Open →
      auto_close_round lottery now = TxResult.err LotteryError.RoundNotOpen lottery) ∧
    (r.status = RoundStatus.Open → now < r.end_time →
      auto_close_round lottery now = TxResult.err LotteryError.RoundStillActive lottery) ∧
    (r.status = RoundStatus.Open → r.end_time ≤ now →
      auto_close_round lottery now =
        TxResult.ok (TokenLottery.mk (lottery.rounds.set (lottery.rounds.length - 1)
          { r with status := RoundStatus.PendingVrf }))) := by
  refine ⟨?_, ?_, ?_⟩
  · intro hs
    rw [auto_close_round, hr]
    dsimp only
    rw [if_neg hs]
  · intro hs hlt
    rw [auto_close_round, hr]
    dsimp only
    rw [if_pos hs, if_neg (by omega)]
  · intro hs hle
    rw [auto_close_round, hr]
    dsimp only
    rw [if_pos hs, if_pos hle]

/-- Witness for claim C8's amended statement: an expired open round with an
empty ticket ledger is transitioned to `PendingVrf` by `auto_close_round`. -/
theorem c8_auto_close_round_witness :
    (⟨[⟨RoundStatus.Open, 0, 0, 0, 0, [], none, none, false⟩]⟩ : TokenLottery).rounds.getLast? =
      some ⟨RoundStatus.Open, 0, 0, 0, 0, [], none, none, false⟩ ∧
    auto_close_round ⟨[⟨RoundStatus.Open, 0, 0, 0, 0, [], none, none, false⟩]⟩ 0 =
      TxResult.ok (TokenLottery.mk
        ((⟨[⟨RoundStatus.Open, 0, 0, 0, 0, [], none, none, false⟩]⟩ : TokenLottery).rounds.set
          ((⟨[⟨RoundStatus.Open, 0, 0, 0, 0, [], none, none, false⟩]⟩ : TokenLottery).rounds.length - 1)
          { (⟨RoundStatus.Open, 0, 0, 0, 0, [], none, none, false⟩ : Round) with
              status := RoundStatus.PendingVrf })) :=
  ⟨by rfl,
   (c8_auto_close_round ⟨[⟨RoundStatus.Open, 0, 0, 0, 0, [], none, none, false⟩]⟩ 0
      ⟨RoundStatus.Open, 0, 0, 0, 0, [], none, none, false⟩ (by rfl)).2.2 (by rfl) (by decide)⟩

/-- Counterexample to claim C8 as stated: a round whose ticket ledger is
empty is not rejected with `NoTicketsInRound`; the close succeeds and the
status changes from `Open` to `PendingVrf`. -/
theorem c8_empty_round_closes_cex :
    (⟨RoundStatus.Open, 0, 0, 0, 0, [], none, none, false⟩ : Round).tickets = [] ∧
    auto_close_round ⟨[⟨RoundStatus.Open, 0, 0, 0, 0, [], none, none, false⟩]⟩ 5 =
      TxResult.ok ⟨[⟨RoundStatus.PendingVrf, 0, 0, 0, 0, [], none, none, false⟩]⟩ := by
  exact ⟨rfl, by decide⟩

/-- Claim C9 (amended): `perform_upkeep` is rejected with `UpkeepNotNeeded`
unless `now > last_timestamp` and the active flag is set; on success it sets
`last_timestamp` to the next period boundary
`now - (now tmod ROUND_DURATION) + ROUND_DURATION` and clears the active
flag — and it does nothing else: the asset pools are not accounts of the
instruction, so no round is closed for randomness and no randomness request
is made (the per-token loop only logs). -/
theorem c9_perform_upkeep (state : LotteryState) (pools : List TokenLottery)
    (now : Int) :
    (¬ (state.last_timestamp < now ∧ state.has_active_lottery = true) →
      perform_upkeep_with_pools state pools now =
        TxResult.err LotteryError.UpkeepNotNeeded (state, pools)) ∧
    (state.last_timestamp < now → state.has_active_lottery = true →
      perform_upkeep_with_pools state pools now =
        TxResult.ok
          ({ state with
              last_timestamp := now - Int.tmod now ROUND_DURATION + ROUND_DURATION,
              has_active_lottery := false }, pools)) := by
  constructor
  · intro hc
    rw [perform_upkeep_with_pools, perform_upkeep, if_neg hc]
  · intro h1 h2
    rw [perform_upkeep_with_pools, perform_upkeep, if_pos ⟨h1, h2⟩]
    rfl

/-- Witness for claim C9's amended statement: a due upkeep at `now = 1000`
advances the clock to 1800 and clears the flag, leaving a pool with an
expired open round untouched. -/
theorem c9_perform_upkeep_witness :
    perform_upkeep_with_pools ⟨1, 10, 2, [], 0, true⟩
      [⟨[⟨RoundStatus.Open, 0, 900, 0, 0, [⟨7, 100, 0, false⟩], none, none, false⟩]⟩] 1000 =
      TxResult.ok
        ({ (⟨1, 10, 2, [], 0, true⟩ : LotteryState) with
            last_timestamp := 1000 - Int.tmod 1000 ROUND_DURATION + ROUND_DURATION,
            has_active_lottery := false },
         [⟨[⟨RoundStatus.Open, 0, 900, 0, 0, [⟨7, 100, 0, false⟩], none, none, false⟩]⟩]) :=
  (c9_perform_upkeep ⟨1, 10, 2, [], 0, true⟩
    [⟨[⟨RoundStatus.Open, 0, 900, 0, 0, [⟨7, 100, 0, false⟩], none, none, false⟩]⟩] 1000).2
    (by decide) (by rfl)

/-- Counterexample to claim C9 as stated: with a pool whose current round's
`end_time` (900) has passed at `now = 1000`, a successful `perform_upkeep`
leaves that round `Open` with no randomness requested — no
`close_for_randomness`/`request_randomness` fan-out happens. -/
theorem c9_no_fanout_cex :
    perform_upkeep_with_pools ⟨1, 10, 2, [], 0, true⟩
      [⟨[⟨RoundStatus.Open, 0, 900, 0, 0, [⟨7, 100, 0, false⟩], none, none, false⟩]⟩] 1000 =
      TxResult.ok
        (⟨1, 10, 2, [], 1800, false⟩,
         [⟨[⟨RoundStatus.Open, 0, 900, 0, 0, [⟨7, 100, 0, false⟩], none, none, false⟩]⟩]) ∧
    (⟨RoundStatus.Open, 0, 900, 0, 0, [⟨7, 100, 0, false⟩], none, none, false⟩ : Round).end_time ≤
      1000 ∧
    (⟨RoundStatus.Open, 0, 900, 0, 0, [⟨7, 100, 0, false⟩], none, none, false⟩ : Round).status =
      RoundStatus.Open := by
  exact ⟨by decide, by decide, rfl⟩

/-- Claim C10: `claim_prize_sol` and `claim_prize_spl` index
`lottery.rounds[round_id]` with no bounds check, so every
`round_id ≥ rounds.length` is a Rust panic (modelled `TxResult.fatal`) and
no clean `InvalidRoundId` error is produced, whereas `get_round_data`
rejects the same id with `InvalidRoundId` before indexing. -/
theorem c10_claim_prize_not_total (lottery : TokenLottery) (round_id : Nat)
    (caller : Pubkey) (h : lottery.rounds.length ≤ round_id) :
    claim_prize_sol lottery round_id caller = TxResult.fatal ∧
    claim_prize_spl lottery round_id caller = TxResult.fatal ∧
    get_round_data lottery round_id = Except.error LotteryError.InvalidRoundId := by
  have h' : ¬ (round_id < lottery.rounds.length) := by omega
  exact ⟨by rw [claim_prize_sol, dif_neg h'], by rw [claim_prize_spl, dif_neg h'],
    by rw [get_round_data, dif_neg h']⟩

/-- Witness for claim C10: round id 3 on a lottery holding a single closed
round. -/
theorem c10_claim_prize_not_total_witness :
    claim_prize_sol ⟨[⟨RoundStatus.Closed, 0, 900, 324, 36, [⟨7, 100, 0, false⟩],
        some 7, some 0, false⟩]⟩ 3 7 = TxResult.fatal ∧
    claim_prize_spl ⟨[⟨RoundStatus.Closed, 0, 900, 324, 36, [⟨7, 100, 0, false⟩],
        some 7, some 0, false⟩]⟩ 3 7 = TxResult.fatal ∧
    get_round_data ⟨[⟨RoundStatus.Closed, 0, 900, 324, 36, [⟨7, 100, 0, false⟩],
        some 7, some 0, false⟩]⟩ 3 = Except.error LotteryError.InvalidRoundId :=
  c10_claim_prize_not_total
    ⟨[⟨RoundStatus.Closed, 0, 900, 324, 36, [⟨7, 100, 0, false⟩], some 7, some 0, false⟩]⟩
    3 7 (by decide)
